import Mathlib

/-!
Verification of the no-pod container lifecycle orchestrator.

The development shallowly embeds the three service layers of the repository:

* `api/services/fastpanel.service.js` — the reverse-proxy / TLS control-plane
  client (session token cache, DNS domain registration, site creation and
  deletion, SSL certificates);
* `api/services/docker.service.js` — the container runtime driver (create,
  stop, start, restart, redeploy, delete, status, backup, logs);
* `api/services/container.service.js` — the lifecycle orchestrator over a
  relational catalog (tables `services`, `containers`, `port_assignments`
  from `database/schema.sql`).

External I/O is made explicit: the MySQL catalog is a record of lists of
rows, each SQL statement issued by the orchestrator is a `CatalogStmt`
applied by `applyStmt`, the Docker engine is the set of existing containers
and working directories, and the FastPanel control plane is a record of DNS
domains and sites.  HTTP failures of external calls are injected through
boolean parameters (`dockerOk`, `proxyOk`, `sslOk`, …): `true` means the
underlying call succeeds, `false` that it fails, matching the spots where
the JavaScript `await` can throw.  Wall-clock waiting cannot be observed in
a pure embedding, so `createSite` additionally returns the ordered list of
externally visible events it performs, including its fixed delay.
-/

deriving instance DecidableEq for Except

namespace NoPod

/-! ## FastPanel control-plane client (`fastpanel.service.js`) -/

/-- The mutable token cache of `FastPanelService` (`this.token`,
`this.tokenExpire`); both start as `null`. Expiry is a millisecond
timestamp. -/
structure Session where
  token : Option String
  tokenExpire : Option Int
deriving Repr, DecidableEq

/-- The control plane's reply to `POST /login`: a bearer token and its
expiry timestamp. -/
structure LoginReply where
  token : String
  expire : Int
deriving Repr, DecidableEq

/-- Result of `getToken`: the token handed to the caller, the updated
cache, and whether a fresh `login()` was performed. -/
structure TokenOut where
  token : String
  session : Session
  didLogin : Bool
deriving Repr, DecidableEq

/-- `login()`: exchanges credentials for a token and stores token and
expiry in the cache. -/
def login (reply : LoginReply) : TokenOut :=
  { token := reply.token
    session := { token := some reply.token, tokenExpire := some reply.expire }
    didLogin := true }

/-- `getToken()`: returns the cached token when one is cached and more
than 5 minutes (`5 * 60 * 1000` ms) remain until expiry at time `now`;
otherwise performs a fresh `login()`. -/
def getToken (s : Session) (now : Int) (reply : LoginReply) : TokenOut :=
  match s.token, s.tokenExpire with
  | some t, some e =>
      if e - now > 5 * 60 * 1000 then
        { token := t, session := s, didLogin := false }
      else
        login reply
  | _, _ => login reply

/-- A reverse-proxy site held by the control plane: opaque id, full
domain, and single upstream address. -/
structure FPSite where
  id : Nat
  domain : String
  upstream : String
deriving Repr, DecidableEq

/-- Observable state of the FastPanel control plane: registered DNS
domains, existing sites, and the id the next created site receives. -/
structure FPState where
  dnsDomains : List String
  sites : List FPSite
  nextSiteId : Nat
deriving Repr, DecidableEq

/-- Failures of the FastPanel client that propagate to its caller. -/
inductive FPError
  | createSiteFailed
  | deleteSiteFailed
deriving Repr, DecidableEq

/-- Result of `addDomain`. -/
structure DomainResult where
  domain : String
  status : String
deriving Repr, DecidableEq

/-- `addDomain(domain)`: `POST /api/dns/domains`.  The control plane
answers the registration with a conflict when the domain already exists;
the client catches that (status 409 or an already-exists message) and
returns a non-error result with status `exists`, leaving the control
plane unchanged.  Otherwise the domain is registered with status
`created`. -/
def addDomain (fp : FPState) (domain : String) : FPState × DomainResult :=
  if fp.dnsDomains.contains domain then
    (fp, { domain := domain, status := "exists" })
  else
    ({ fp with dnsDomains := fp.dnsDomains ++ [domain] },
     { domain := domain, status := "created" })

/-- Result of `createSSL`. -/
structure SSLResult where
  domain : String
  status : String
deriving Repr, DecidableEq

/-- Externally visible events performed by `createSite`, in order. -/
inductive FPEvent
  | domainAdd
  | siteCreate
  | delayMs (ms : Nat)
  | sslRequest
deriving Repr, DecidableEq

/-- `createSSL(domain, siteId)`: requests a certificate
(`POST /api/certificates`); on failure it logs and returns `null`
instead of raising (`sslOk` injects the outcome of the request). -/
def createSSL (domain : String) (sslOk : Bool) : Option SSLResult × List FPEvent :=
  (if sslOk then some { domain := domain, status := "creating" } else none,
   [FPEvent.sslRequest])

/-- Result of `createSite`. -/
structure SiteResult where
  siteId : Nat
  domain : String
  status : String
  upstream : String
  ssl : Option SSLResult
deriving Repr, DecidableEq

/-- Full output of `createSite`: resulting control-plane state, result or
error, and the ordered event trace. -/
structure CreateSiteOut where
  fp : FPState
  result : Except FPError SiteResult
  events : List FPEvent
deriving Repr, DecidableEq

/-- `createSite(subdomain, port)`: composes the full domain, calls
`addDomain` first, creates a reverse-proxy site with the single upstream
`http://127.0.0.1:<port>` (`PUT /api/master`, outcome injected by
`siteOk`), waits a fixed 5000 ms, then requests a certificate via
`createSSL`.  A site-creation failure is re-raised wrapped; the DNS
domain added beforehand persists. -/
def createSite (fp : FPState) (subdomain : String) (port : Nat) (baseDomain : String)
    (siteOk sslOk : Bool) : CreateSiteOut :=
  let domain := subdomain ++ "." ++ baseDomain
  let fp1 := (addDomain fp domain).1
  if siteOk then
    let siteId := fp1.nextSiteId
    let upstream := "http://127.0.0.1:" ++ toString port
    let fp2 : FPState :=
      { fp1 with
          sites := fp1.sites ++ [{ id := siteId, domain := domain, upstream := upstream }]
          nextSiteId := fp1.nextSiteId + 1 }
    let sslOut := createSSL domain sslOk
    { fp := fp2
      result := Except.ok
        { siteId := siteId, domain := domain, status := "created",
          upstream := upstream, ssl := sslOut.1 }
      events := [FPEvent.domainAdd, FPEvent.siteCreate, FPEvent.delayMs 5000] ++ sslOut.2 }
  else
    { fp := fp1
      result := Except.error FPError.createSiteFailed
      events := [FPEvent.domainAdd, FPEvent.siteCreate] }

/-- Result of `deleteSite`. -/
structure DeleteResult where
  siteId : Option Nat
  domain : String
  status : String
deriving Repr, DecidableEq

/-- Output of `deleteSite`. -/
structure DeleteSiteOut where
  fp : FPState
  result : Except FPError DeleteResult
deriving Repr, DecidableEq

/-- `deleteSite(domain)`: lists all sites and looks the target up by
domain; when absent it returns status `not_found` without error;
otherwise it deletes that site by id, explicitly preserving DNS domain
records.  `callsOk` injects the outcome of the underlying HTTP calls;
when they fail the error is re-raised wrapped. -/
def deleteSite (fp : FPState) (domain : String) (callsOk : Bool) : DeleteSiteOut :=
  if callsOk then
    match fp.sites.find? (fun s => s.domain == domain) with
    | none =>
        { fp := fp, result := Except.ok { siteId := none, domain := domain, status := "not_found" } }
    | some site =>
        { fp := { fp with sites := fp.sites.filter (fun s => s.id != site.id) }
          result := Except.ok { siteId := some site.id, domain := domain, status := "deleted" } }
  else
    { fp := fp, result := Except.error FPError.deleteSiteFailed }

/-! ## Catalog (`database/schema.sql`) -/

/-- The `status` column of `containers`
(`ENUM('running', 'stopped', 'deleted')`). -/
inductive CStatus
  | running
  | stopped
  | deleted
deriving Repr, DecidableEq

/-- A row of the `services` table (columns the orchestrator reads). -/
structure ServiceRow where
  name : String
  default_cpu : String
  default_memory : String
deriving Repr, DecidableEq

/-- A row of the `containers` table.  `container_id` is the Docker
engine id (a string); `id` is the auto-increment primary key. -/
structure ContainerRow where
  id : Nat
  container_id : String
  container_identifier : String
  instance_name : String
  service_name : String
  subdomain : String
  port : Nat
  status : CStatus
  cpu_limit : String
  memory_limit : String
  data_path : String
  fastpanel_site_id : Option Nat
deriving Repr, DecidableEq

/-- A row of the `port_assignments` table.  Here `container_id` is the
foreign key to `containers.id`. -/
structure PortRow where
  port : Nat
  container_id : Option Nat
  is_available : Bool
deriving Repr, DecidableEq

/-- The relational catalog: the three tables and the next
auto-increment id of `containers`. -/
structure Catalog where
  services : List ServiceRow
  containers : List ContainerRow
  port_assignments : List PortRow
  nextId : Nat
deriving Repr, DecidableEq

/-- The write statements the orchestrator issues against the catalog.
Each corresponds to one `pool.query` call in `container.service.js`. -/
inductive CatalogStmt
  | insertContainer (row : ContainerRow)
  | markPortUsed (ownerId : Nat) (port : Nat)
  | freePortByOwner (ownerId : Nat)
  | setStatus (id : Nat) (status : CStatus)
deriving Repr, DecidableEq

/-- Semantics of one catalog write statement.

* `insertContainer`: `INSERT INTO containers ... VALUES (...)`;
* `markPortUsed i p`: `UPDATE port_assignments SET is_available = FALSE,
  container_id = i WHERE port = p`;
* `freePortByOwner i`: `UPDATE port_assignments SET is_available = TRUE,
  container_id = NULL WHERE container_id = i`;
* `setStatus i s`: `UPDATE containers SET status = s WHERE id = i`. -/
def applyStmt (c : Catalog) (s : CatalogStmt) : Catalog :=
  match s with
  | CatalogStmt.insertContainer row =>
      { c with containers := c.containers ++ [row], nextId := c.nextId + 1 }
  | CatalogStmt.markPortUsed ownerId port =>
      { c with port_assignments := c.port_assignments.map (fun pr =>
          if pr.port == port then
            { pr with is_available := false, container_id := some ownerId }
          else pr) }
  | CatalogStmt.freePortByOwner ownerId =>
      { c with port_assignments := c.port_assignments.map (fun pr =>
          if pr.container_id == some ownerId then
            { pr with is_available := true, container_id := none }
          else pr) }
  | CatalogStmt.setStatus i st =>
      { c with containers := c.containers.map (fun r =>
          if r.id == i then { r with status := st } else r) }

/-- Sequential execution of catalog statements (each `pool.query` call
auto-commits on its own). -/
def applyStmts (c : Catalog) (ws : List CatalogStmt) : Catalog :=
  ws.foldl applyStmt c

/-- A statement list is atomic over `c` when no proper prefix of its
execution exposes a catalog other than the initial or the final one:
the observable meaning of running the writes inside one transaction. -/
def atomicStmts (c : Catalog) (ws : List CatalogStmt) : Prop :=
  ∀ k ≤ ws.length,
    applyStmts c (ws.take k) = c ∨ applyStmts c (ws.take k) = applyStmts c ws

instance decAtomicStmts (c : Catalog) (ws : List CatalogStmt) :
    Decidable (atomicStmts c ws) := by
  unfold atomicStmts
  infer_instance

/-! ## Docker runtime driver (`docker.service.js`) -/

/-- Observable engine state: names of existing containers and of
existing per-instance working directories under `users/`.  The driver
addresses both by the container identifier.  (Whether a present
container is currently running is not needed by any claim and is not
tracked.) -/
structure DockerState where
  containers : List String
  dirs : List String
deriving Repr, DecidableEq

/-- What `dockerService.createContainer` returns on success. -/
structure ContainerInfo where
  containerId : String
  containerIdentifier : String
  dataPath : String
  status : String
deriving Repr, DecidableEq

/-- `cleanupFailedContainer` / working-directory removal: best-effort
removal of the container and its directory; tolerates absence. -/
def dockerRemoveAll (d : DockerState) (cid : String) : DockerState :=
  { containers := d.containers.filter (fun c => c != cid)
    dirs := d.dirs.filter (fun c => c != cid) }

/-- Orchestrator-level errors (`throw new Error(...)` sites of
`container.service.js`, plus runtime-driver failures). -/
inductive OrchError
  | invalidInstanceName
  | serviceNotFound (name : String)
  | alreadyExists (identifier : String)
  | noAvailablePorts
  | containerNotFound
  | dockerFailed (op : String)
  | fastpanelCreateFailed (cause : FPError)
deriving Repr, DecidableEq

/-- `dockerService.createContainer`: creates the working directory and
data directory, renders the env file, copies the compose file and brings
the deployment up (`ok` injects the outcome of these steps).  On failure
it runs `cleanupFailedContainer` and re-raises. -/
def dockerCreateContainer (d : DockerState) (instanceName serviceName : String)
    (ok : Bool) : DockerState × Except OrchError ContainerInfo :=
  let cid := instanceName ++ "-" ++ serviceName
  if ok then
    ({ containers := d.containers ++ [cid], dirs := d.dirs ++ [cid] },
     Except.ok
       { containerId := "engine-" ++ cid
         containerIdentifier := cid
         dataPath := "users/" ++ cid ++ "/data"
         status := "running" })
  else
    (dockerRemoveAll d cid, Except.error (OrchError.dockerFailed "create"))

/-- `dockerService.deleteContainer`: `docker compose down -v` (failure
tolerated) followed by unconditional removal of the working
directory. -/
def dockerDeleteContainer (d : DockerState) (cid : String) : DockerState × String :=
  (dockerRemoveAll d cid, "deleted")

/-- `dockerService.stopContainer`: `docker.getContainer(cid).stop()`,
which raises when no such container exists. -/
def dockerStopContainer (d : DockerState) (cid : String) : Except OrchError String :=
  if d.containers.contains cid then Except.ok "stopped"
  else Except.error (OrchError.dockerFailed "stop")

/-- `dockerService.startContainer`. -/
def dockerStartContainer (d : DockerState) (cid : String) : Except OrchError String :=
  if d.containers.contains cid then Except.ok "running"
  else Except.error (OrchError.dockerFailed "start")

/-- `dockerService.restartContainer`. -/
def dockerRestartContainer (d : DockerState) (cid : String) : Except OrchError String :=
  if d.containers.contains cid then Except.ok "running"
  else Except.error (OrchError.dockerFailed "restart")

/-- `dockerService.redeployContainer`: `docker compose down && docker
compose up -d` in the working directory; fails when the directory is
gone. -/
def dockerRedeployContainer (d : DockerState) (cid : String) : Except OrchError String :=
  if d.dirs.contains cid then Except.ok "redeployed"
  else Except.error (OrchError.dockerFailed "redeploy")

/-- What `inspect` reports. -/
structure DockerStatusInfo where
  status : String
  running : Bool
deriving Repr, DecidableEq

/-- `dockerService.getContainerStatus`: fails soft — a missing container
reports `not_found` / `running = false` instead of raising. -/
def dockerGetContainerStatus (d : DockerState) (cid : String) : DockerStatusInfo :=
  if d.containers.contains cid then { status := "running", running := true }
  else { status := "not_found", running := false }

/-- What `backupContainer` returns (archive path under `backups/`; the
timestamp embedded in the real filename is abstracted away). -/
structure BackupInfo where
  backupFile : String
deriving Repr, DecidableEq

/-- `dockerService.backupContainer`: archives the instance data
directory; fails when the directory is gone. -/
def dockerBackupContainer (d : DockerState) (cid : String) : Except OrchError BackupInfo :=
  if d.dirs.contains cid then Except.ok { backupFile := "backups/" ++ cid ++ ".tar.gz" }
  else Except.error (OrchError.dockerFailed "backup")

/-- `dockerService.getContainerLogs`: raises on a missing container
(log text itself is abstract). -/
def dockerGetContainerLogs (d : DockerState) (cid : String) (lines : Nat) :
    Except OrchError String :=
  if d.containers.contains cid then Except.ok ("tail-" ++ toString lines ++ "-" ++ cid)
  else Except.error (OrchError.dockerFailed "logs")

/-! ## Lifecycle orchestrator (`container.service.js`) -/

/-- The whole observable world an orchestrator operation acts on. -/
structure SysState where
  catalog : Catalog
  docker : DockerState
  fastpanel : FPState
deriving Repr, DecidableEq

/-- Output of one orchestrator operation: the resulting world, the
catalog write statements it issued in order, and its result or error. -/
structure OpOut (α : Type) where
  state : SysState
  writes : List CatalogStmt
  result : Except OrchError α

deriving instance Repr for OpOut
deriving instance DecidableEq for OpOut

/-- One character class of `/^[a-zA-Z0-9-]+$/`: an ASCII letter, an
ASCII digit, or the dash (codepoint 45). -/
def isSafeChar (c : Char) : Bool :=
  (65 <= c.toNat && c.toNat <= 90) || (97 <= c.toNat && c.toNat <= 122) ||
  (48 <= c.toNat && c.toNat <= 57) || c.toNat == 45

/-- `/^[a-zA-Z0-9-]+$/`: nonempty, letters, digits and dashes only. -/
def validInstanceName (s : String) : Bool :=
  !s.isEmpty && s.toList.all isSafeChar

/-- JavaScript `value || fallback` on an optional string field: the
fallback is used when the field is missing or empty. -/
def orDefault (v : Option String) (d : String) : String :=
  match v with
  | some s => if s.isEmpty then d else s
  | none => d

/-- `getAvailablePort`: `SELECT port FROM port_assignments WHERE
is_available = TRUE ORDER BY port LIMIT 1`, i.e. the minimum available
port; raises the pool-exhausted error when none is available.  It issues
no write. -/
def getAvailablePort (ports : List PortRow) : Except OrchError Nat :=
  match (ports.filter (fun pr => pr.is_available)).map (fun pr => pr.port) with
  | [] => Except.error OrchError.noAvailablePorts
  | p :: ps => Except.ok (ps.foldl min p)

/-- `SELECT * FROM containers WHERE id = ?` followed by taking
`containers[0]` — no filter on `status`. -/
def findContainer (c : Catalog) (i : Nat) : Option ContainerRow :=
  (c.containers.filter (fun r => r.id == i)).head?

/-- The optional `resources` argument of container creation. -/
structure ResourceSpec where
  cpu : Option String
  memory : Option String
deriving Repr, DecidableEq

/-- The object `createContainer` returns. -/
structure CreateResult where
  id : Nat
  containerId : String
  containerIdentifier : String
  dataPath : String
  subdomain : String
  port : Nat
  url : String
  fastpanel : SiteResult
deriving Repr, DecidableEq

/-- `createContainer`: validates the instance name, checks the service
exists, rejects a duplicate non-deleted identifier, selects an available
port, provisions the runtime, creates the proxy site, and only then
inserts the instance row and marks the port used (two separate
statements).  When the proxy step fails, the just-created runtime
container is deleted and a wrapped error naming the proxy failure is
raised. -/
def createContainer (st : SysState) (baseDomain instanceName serviceName : String)
    (resources : ResourceSpec) (dockerOk proxyOk sslOk : Bool) : OpOut CreateResult :=
  if !(validInstanceName instanceName) then
    { state := st, writes := [], result := Except.error OrchError.invalidInstanceName }
  else
    match st.catalog.services.filter (fun s => s.name == serviceName) with
    | [] =>
        { state := st, writes := [],
          result := Except.error (OrchError.serviceNotFound serviceName) }
    | svc :: _ =>
        let containerIdentifier := instanceName ++ "-" ++ serviceName
        let subdomain := containerIdentifier
        if (st.catalog.containers.filter (fun r =>
              r.container_identifier == containerIdentifier && r.status != CStatus.deleted)).length > 0
        then
          { state := st, writes := [],
            result := Except.error (OrchError.alreadyExists containerIdentifier) }
        else
          match getAvailablePort st.catalog.port_assignments with
          | Except.error e => { state := st, writes := [], result := Except.error e }
          | Except.ok port =>
              let cpu := orDefault resources.cpu svc.default_cpu
              let memory := orDefault resources.memory svc.default_memory
              let dockerOut := dockerCreateContainer st.docker instanceName serviceName dockerOk
              match dockerOut.2 with
              | Except.error e =>
                  { state := { st with docker := dockerOut.1 }, writes := [],
                    result := Except.error e }
              | Except.ok info =>
                  let siteOut := createSite st.fastpanel subdomain port baseDomain proxyOk sslOk
                  match siteOut.result with
                  | Except.error fe =>
                      let dockerDel := dockerDeleteContainer dockerOut.1 containerIdentifier
                      { state := { st with docker := dockerDel.1, fastpanel := siteOut.fp }
                        writes := []
                        result := Except.error (OrchError.fastpanelCreateFailed fe) }
                  | Except.ok site =>
                      let newId := st.catalog.nextId
                      let row : ContainerRow :=
                        { id := newId
                          container_id := info.containerId
                          container_identifier := containerIdentifier
                          instance_name := instanceName
                          service_name := serviceName
                          subdomain := subdomain
                          port := port
                          status := CStatus.running
                          cpu_limit := cpu
                          memory_limit := memory
                          data_path := info.dataPath
                          fastpanel_site_id := some site.siteId }
                      let writes := [CatalogStmt.insertContainer row,
                                     CatalogStmt.markPortUsed newId port]
                      { state :=
                          { catalog := applyStmts st.catalog writes
                            docker := dockerOut.1
                            fastpanel := siteOut.fp }
                        writes := writes
                        result := Except.ok
                          { id := newId
                            containerId := info.containerId
                            containerIdentifier := containerIdentifier
                            dataPath := info.dataPath
                            subdomain := subdomain
                            port := port
                            url := "https://" ++ subdomain ++ "." ++ baseDomain
                            fastpanel := site } }

/-- `stopContainer(id)`: look the row up by id, stop the runtime
container, then set the row status to `stopped`. -/
def stopContainer (st : SysState) (i : Nat) : OpOut String :=
  match findContainer st.catalog i with
  | none => { state := st, writes := [], result := Except.error OrchError.containerNotFound }
  | some row =>
      match dockerStopContainer st.docker row.container_identifier with
      | Except.error e => { state := st, writes := [], result := Except.error e }
      | Except.ok _ =>
          let writes := [CatalogStmt.setStatus i CStatus.stopped]
          { state := { st with catalog := applyStmts st.catalog writes }
            writes := writes
            result := Except.ok "Container stopped successfully" }

/-- `startContainer(id)`. -/
def startContainer (st : SysState) (i : Nat) : OpOut String :=
  match findContainer st.catalog i with
  | none => { state := st, writes := [], result := Except.error OrchError.containerNotFound }
  | some row =>
      match dockerStartContainer st.docker row.container_identifier with
      | Except.error e => { state := st, writes := [], result := Except.error e }
      | Except.ok _ =>
          let writes := [CatalogStmt.setStatus i CStatus.running]
          { state := { st with catalog := applyStmts st.catalog writes }
            writes := writes
            result := Except.ok "Container started successfully" }

/-- `restartContainer(id)`. -/
def restartContainer (st : SysState) (i : Nat) : OpOut String :=
  match findContainer st.catalog i with
  | none => { state := st, writes := [], result := Except.error OrchError.containerNotFound }
  | some row =>
      match dockerRestartContainer st.docker row.container_identifier with
      | Except.error e => { state := st, writes := [], result := Except.error e }
      | Except.ok _ =>
          let writes := [CatalogStmt.setStatus i CStatus.running]
          { state := { st with catalog := applyStmts st.catalog writes }
            writes := writes
            result := Except.ok "Container restarted successfully" }

/-- `redeployContainer(id)`. -/
def redeployContainer (st : SysState) (i : Nat) : OpOut String :=
  match findContainer st.catalog i with
  | none => { state := st, writes := [], result := Except.error OrchError.containerNotFound }
  | some row =>
      match dockerRedeployContainer st.docker row.container_identifier with
      | Except.error e => { state := st, writes := [], result := Except.error e }
      | Except.ok _ =>
          let writes := [CatalogStmt.setStatus i CStatus.running]
          { state := { st with catalog := applyStmts st.catalog writes }
            writes := writes
            result := Except.ok "Container redeployed successfully" }

/-- `deleteContainer(id)`: look the row up by id, delete the runtime
container and its working directory, best-effort-delete the proxy site
(a failure, injected by `proxyDeleteOk = false`, is logged and
swallowed), then free the port rows owned by the instance and set the
row status to `deleted`. -/
def deleteContainer (st : SysState) (baseDomain : String) (i : Nat)
    (proxyDeleteOk : Bool) : OpOut String :=
  match findContainer st.catalog i with
  | none => { state := st, writes := [], result := Except.error OrchError.containerNotFound }
  | some row =>
      let dockerDel := dockerDeleteContainer st.docker row.container_identifier
      let domain := row.subdomain ++ "." ++ baseDomain
      let fpOut := deleteSite st.fastpanel domain proxyDeleteOk
      let writes := [CatalogStmt.freePortByOwner i, CatalogStmt.setStatus i CStatus.deleted]
      { state :=
          { catalog := applyStmts st.catalog writes
            docker := dockerDel.1
            fastpanel := fpOut.fp }
        writes := writes
        result := Except.ok "Container deleted successfully" }

/-- `backupContainer(id)`: look up by id and archive the data directory;
no catalog write. -/
def backupContainer (st : SysState) (i : Nat) : OpOut BackupInfo :=
  match findContainer st.catalog i with
  | none => { state := st, writes := [], result := Except.error OrchError.containerNotFound }
  | some row =>
      match dockerBackupContainer st.docker row.container_identifier with
      | Except.error e => { state := st, writes := [], result := Except.error e }
      | Except.ok b => { state := st, writes := [], result := Except.ok b }

/-- What `getContainerStatus` returns: the row spread together with the
runtime inspection. -/
structure StatusResult where
  row : ContainerRow
  dockerStatus : DockerStatusInfo
deriving Repr, DecidableEq

/-- `getContainerStatus(id)`: look up by id and inspect the runtime
container (inspection fails soft); no catalog write. -/
def getContainerStatus (st : SysState) (i : Nat) : OpOut StatusResult :=
  match findContainer st.catalog i with
  | none => { state := st, writes := [], result := Except.error OrchError.containerNotFound }
  | some row =>
      { state := st, writes := [],
        result := Except.ok
          { row := row, dockerStatus := dockerGetContainerStatus st.docker row.container_identifier } }

/-- `getContainerLogs(id, lines)`: look up by id and fetch the log tail;
no catalog write. -/
def getContainerLogs (st : SysState) (i : Nat) (lines : Nat) : OpOut String :=
  match findContainer st.catalog i with
  | none => { state := st, writes := [], result := Except.error OrchError.containerNotFound }
  | some row =>
      match dockerGetContainerLogs st.docker row.container_identifier lines with
      | Except.error e => { state := st, writes := [], result := Except.error e }
      | Except.ok logs => { state := st, writes := [], result := Except.ok logs }

/-! ## Invariants of the catalog -/

/-- The specified port-pool invariant: a port's availability flag is
`false` exactly when some non-deleted instance row references the
port. -/
def portInvariant (c : Catalog) : Prop :=
  ∀ pr ∈ c.port_assignments,
    (pr.is_available = false ↔
      ∃ r ∈ c.containers, r.status ≠ CStatus.deleted ∧ r.port = pr.port)

/-- Structural well-formedness of the catalog, maintained by the schema
(unique keys) and by the orchestrator: row ids are below the next
auto-increment id and unique, ports are unique in the pool and unique
among non-deleted rows, and the owner references of the pool and the
port fields of live rows point at each other. -/
def wfCatalog (c : Catalog) : Prop :=
  (∀ r ∈ c.containers, r.id < c.nextId) ∧
  (∀ a ∈ c.containers, ∀ b ∈ c.containers, a.id = b.id → a = b) ∧
  (∀ a ∈ c.containers, ∀ b ∈ c.containers,
     a.status ≠ CStatus.deleted → b.status ≠ CStatus.deleted → a.port = b.port → a = b) ∧
  (∀ p1 ∈ c.port_assignments, ∀ p2 ∈ c.port_assignments, p1.port = p2.port → p1 = p2) ∧
  (∀ pr ∈ c.port_assignments,
     pr.container_id = none ∨
     ∃ r ∈ c.containers,
       pr.container_id = some r.id ∧ r.status ≠ CStatus.deleted ∧ r.port = pr.port) ∧
  (∀ r ∈ c.containers, r.status ≠ CStatus.deleted →
     ∃ pr ∈ c.port_assignments, pr.port = r.port ∧ pr.container_id = some r.id)

/-- Conjunction of well-formedness and the port-pool invariant. -/
def goodCatalog (c : Catalog) : Prop :=
  wfCatalog c ∧ portInvariant c

instance decPortInvariant (c : Catalog) : Decidable (portInvariant c) := by
  unfold portInvariant
  infer_instance

instance decWfCatalog (c : Catalog) : Decidable (wfCatalog c) := by
  unfold wfCatalog
  infer_instance

instance decGoodCatalog (c : Catalog) : Decidable (goodCatalog c) := by
  unfold goodCatalog
  infer_instance

/-! ## Concrete states used to instantiate and to refute claims -/

/-- The `n8n` row of the `services` table seeded by `schema.sql`. -/
def svcRow : ServiceRow :=
  { name := "n8n", default_cpu := "2", default_memory := "1024M" }

/-- A fresh deployment: the seeded service, an empty `containers` table,
two free ports from the pool, no runtime containers, an empty control
plane. -/
def freshState : SysState :=
  { catalog :=
      { services := [svcRow]
        containers := []
        port_assignments :=
          [{ port := 14000, container_id := none, is_available := true },
           { port := 14001, container_id := none, is_available := true }]
        nextId := 1 }
    docker := { containers := [], dirs := [] }
    fastpanel := { dnsDomains := [], sites := [], nextSiteId := 1 } }

/-- The instance row produced by a successful create of
`alpha` / `n8n` on port 14000. -/
def liveRow : ContainerRow :=
  { id := 1
    container_id := "engine-alpha-n8n"
    container_identifier := "alpha-n8n"
    instance_name := "alpha"
    service_name := "n8n"
    subdomain := "alpha-n8n"
    port := 14000
    status := CStatus.running
    cpu_limit := "2"
    memory_limit := "1024M"
    data_path := "users/alpha-n8n/data"
    fastpanel_site_id := some 1 }

/-- The world after that create completed. -/
def liveState : SysState :=
  { catalog :=
      { services := [svcRow]
        containers := [liveRow]
        port_assignments :=
          [{ port := 14000, container_id := some 1, is_available := false },
           { port := 14001, container_id := none, is_available := true }]
        nextId := 2 }
    docker := { containers := ["alpha-n8n"], dirs := ["alpha-n8n"] }
    fastpanel :=
      { dnsDomains := ["alpha-n8n.ex.com"]
        sites := [{ id := 1, domain := "alpha-n8n.ex.com", upstream := "http://127.0.0.1:14000" }]
        nextSiteId := 2 } }

/-- `liveRow` after a soft delete. -/
def deletedRow : ContainerRow :=
  { liveRow with status := CStatus.deleted }

/-- A world holding a soft-deleted row for `alpha-n8n` while a runtime
container named `alpha-n8n` exists (as happens after the identifier is
deleted and then created again: the engine name is reused while the old
row keeps its id). -/
def deletedRowState : SysState :=
  { catalog :=
      { services := [svcRow]
        containers := [deletedRow]
        port_assignments :=
          [{ port := 14000, container_id := none, is_available := true },
           { port := 14001, container_id := none, is_available := true }]
        nextId := 2 }
    docker := { containers := ["alpha-n8n"], dirs := ["alpha-n8n"] }
    fastpanel := { dnsDomains := [], sites := [], nextSiteId := 1 } }

/-- The live instance row after `alpha-n8n` was deleted and re-created
while `beta-n8n` had taken port 14000: the re-created `alpha-n8n` holds
id 3 and port 14001. -/
def recreatedRow : ContainerRow :=
  { id := 3
    container_id := "engine-alpha-n8n"
    container_identifier := "alpha-n8n"
    instance_name := "alpha"
    service_name := "n8n"
    subdomain := "alpha-n8n"
    port := 14001
    status := CStatus.running
    cpu_limit := "2"
    memory_limit := "1024M"
    data_path := "users/alpha-n8n/data"
    fastpanel_site_id := some 3 }

/-- A world reachable by completed operations only: create `alpha-n8n`
(id 1, port 14000), delete it, create `beta-n8n` (takes the freed port
14000), create `alpha-n8n` again (id 3, port 14001), delete `beta-n8n`
(frees 14000 again).  The soft-deleted row id 1 still records port
14000, which is now available, and the runtime container `alpha-n8n`
of the re-created instance exists. -/
def resurrectState : SysState :=
  { catalog :=
      { services := [svcRow]
        containers := [deletedRow, recreatedRow]
        port_assignments :=
          [{ port := 14000, container_id := none, is_available := true },
           { port := 14001, container_id := some 3, is_available := false }]
        nextId := 4 }
    docker := { containers := ["alpha-n8n"], dirs := ["alpha-n8n"] }
    fastpanel := { dnsDomains := [], sites := [], nextSiteId := 4 } }

/-- A one-entry pool whose single port is free. -/
def soloFreePool : List PortRow :=
  [{ port := 14000, container_id := none, is_available := true }]

/-- A two-entry pool listed in descending port order, both free. -/
def descFreePool : List PortRow :=
  [{ port := 14001, container_id := none, is_available := true },
   { port := 14000, container_id := none, is_available := true }]

/-! ## Helper lemmas -/

theorem foldlMin_mem (ps : List Nat) (p : Nat) : ps.foldl min p ∈ p :: ps := by
  induction ps generalizing p with
  | nil => simp
  | cons q qs ih =>
      simp only [List.foldl_cons]
      rcases List.mem_cons.mp (ih (min p q)) with h1 | h1
      · rcases min_choice p q with hm | hm
        · rw [h1, hm]; exact List.mem_cons_self _ _
        · rw [h1, hm]; exact List.mem_cons_of_mem _ (List.mem_cons_self _ _)
      · exact List.mem_cons_of_mem _ (List.mem_cons_of_mem _ h1)

theorem foldlMin_le_self (ps : List Nat) (p : Nat) : ps.foldl min p ≤ p := by
  induction ps generalizing p with
  | nil => simp
  | cons a as ih =>
      simp only [List.foldl_cons]
      exact le_trans (ih (min p a)) (min_le_left p a)

theorem foldlMin_le (ps : List Nat) (p q : Nat) (hq : q ∈ p :: ps) : ps.foldl min p ≤ q := by
  induction ps generalizing p with
  | nil =>
      simp only [List.mem_singleton] at hq
      simp [hq]
  | cons a as ih =>
      simp only [List.foldl_cons]
      rcases List.mem_cons.mp hq with h1 | h1
      · rw [h1]
        exact le_trans (foldlMin_le_self as (min p a)) (min_le_left p a)
      · rcases List.mem_cons.mp h1 with h2 | h2
        · rw [h2]
          exact le_trans (foldlMin_le_self as (min p a)) (min_le_right p a)
        · exact ih (min p a) (List.mem_cons_of_mem _ h2)

/-- Full functional specification of `getAvailablePort`: on success the
returned port is an available one and a lower bound of all available
ports; the pool-exhausted error is returned exactly when no port is
available. -/
theorem getAvailablePort_spec (ports : List PortRow) :
    (∀ p, getAvailablePort ports = Except.ok p →
       (∃ pr ∈ ports, pr.port = p ∧ pr.is_available = true) ∧
       (∀ pr ∈ ports, pr.is_available = true → p ≤ pr.port)) ∧
    (getAvailablePort ports = Except.error OrchError.noAvailablePorts ↔
       ∀ pr ∈ ports, pr.is_available = false) := by
  rcases hm : (ports.filter (fun pr => pr.is_available)).map (fun pr => pr.port) with _ | ⟨a, as⟩
  · have hmain : getAvailablePort ports = Except.error OrchError.noAvailablePorts := by
      unfold getAvailablePort
      rw [hm]
    constructor
    · intro p hp
      rw [hmain] at hp
      exact absurd hp (by simp)
    · rw [hmain]
      have hf : ports.filter (fun pr => pr.is_available) = [] := List.map_eq_nil_iff.mp hm
      constructor
      · intro _ pr hpr
        have hna := List.filter_eq_nil_iff.mp hf pr hpr
        simpa using hna
      · intro _
        rfl
  · have hmain : getAvailablePort ports = Except.ok (as.foldl min a) := by
      unfold getAvailablePort
      rw [hm]
    constructor
    · intro p hp
      rw [hmain] at hp
      have hpe : as.foldl min a = p := by simpa using hp
      constructor
      · have hmem := foldlMin_mem as a
        rw [hpe, ← hm] at hmem
        simp only [List.mem_map, List.mem_filter] at hmem
        obtain ⟨pr, ⟨hpr, hav⟩, hport⟩ := hmem
        exact ⟨pr, hpr, hport, by simpa using hav⟩
      · intro pr hpr hav
        have hmem : pr.port ∈ a :: as := by
          rw [← hm]
          exact List.mem_map_of_mem _ (List.mem_filter.mpr ⟨hpr, by simp [hav]⟩)
        rw [← hpe]
        exact foldlMin_le as a pr.port hmem
    · rw [hmain]
      constructor
      · intro hcontra
        exact absurd hcontra (by simp)
      · intro hall
        exfalso
        have hmem : a ∈ a :: as := List.mem_cons_self _ _
        rw [← hm] at hmem
        simp only [List.mem_map, List.mem_filter] at hmem
        obtain ⟨pr, ⟨hpr, hav⟩, _⟩ := hmem
        have hfalse := hall pr hpr
        rw [hfalse] at hav
        exact absurd hav (by simp)

/-- A successful by-id lookup returns a member of the table whose id is
the requested one. -/
theorem findContainer_some (c : Catalog) (i : Nat) (row : ContainerRow)
    (h : findContainer c i = some row) :
    row ∈ c.containers ∧ row.id = i := by
  unfold findContainer at h
  rcases hl : c.containers.filter (fun r => r.id == i) with _ | ⟨a, as⟩
  · rw [hl] at h
    exact absurd h (by simp)
  · rw [hl] at h
    have ha : a = row := by simpa using h
    have hmem : a ∈ c.containers.filter (fun r => r.id == i) := by
      rw [hl]; exact List.mem_cons_self _ _
    rw [List.mem_filter] at hmem
    obtain ⟨hmem1, hmem2⟩ := hmem
    refine ⟨ha ▸ hmem1, ?_⟩
    rw [← ha]
    simpa using hmem2

/-- Setting the status of row `i` to a non-deleted status preserves
`goodCatalog`, provided every row with id `i` is itself not deleted. -/
theorem goodCatalog_setStatus (c : Catalog) (i : Nat) (s : CStatus)
    (hs : s ≠ CStatus.deleted)
    (hlive : ∀ r ∈ c.containers, r.id = i → r.status ≠ CStatus.deleted)
    (hg : goodCatalog c) :
    goodCatalog (applyStmt c (CatalogStmt.setStatus i s)) := by
  obtain ⟨⟨h1, h2, h3, h4, h5, h6⟩, h7⟩ := hg
  simp only [goodCatalog, wfCatalog, portInvariant, applyStmt]
  set f : ContainerRow → ContainerRow :=
    fun r => if r.id == i then { r with status := s } else r with hfdef
  have fid : ∀ r : ContainerRow, (f r).id = r.id := by
    intro r
    by_cases h : r.id = i <;> simp [hfdef, h]
  have fport : ∀ r : ContainerRow, (f r).port = r.port := by
    intro r
    by_cases h : r.id = i <;> simp [hfdef, h]
  have fstat : ∀ r ∈ c.containers,
      ((f r).status ≠ CStatus.deleted ↔ r.status ≠ CStatus.deleted) := by
    intro r hr
    by_cases h : r.id = i
    · simp [hfdef, h, hs, hlive r hr h]
    · simp [hfdef, h]
  refine ⟨⟨?_, ?_, ?_, ?_, ?_, ?_⟩, ?_⟩
  · intro r2 hr2
    simp only [List.mem_map] at hr2
    obtain ⟨r, hr, rfl⟩ := hr2
    rw [fid]
    exact h1 r hr
  · intro a2 ha2 b2 hb2 hab
    simp only [List.mem_map] at ha2 hb2
    obtain ⟨a, ha, rfl⟩ := ha2
    obtain ⟨b, hb, rfl⟩ := hb2
    have hab2 : a.id = b.id := by rw [← fid a, ← fid b]; exact hab
    rw [h2 a ha b hb hab2]
  · intro a2 ha2 b2 hb2 hal hbl hport
    simp only [List.mem_map] at ha2 hb2
    obtain ⟨a, ha, rfl⟩ := ha2
    obtain ⟨b, hb, rfl⟩ := hb2
    have hport2 : a.port = b.port := by rw [← fport a, ← fport b]; exact hport
    rw [h3 a ha b hb ((fstat a ha).mp hal) ((fstat b hb).mp hbl) hport2]
  · exact h4
  · intro pr hpr
    rcases h5 pr hpr with hnone | ⟨r, hr, hcid, hliv, hport⟩
    · exact Or.inl hnone
    · refine Or.inr ⟨f r, List.mem_map_of_mem f hr, ?_, (fstat r hr).mpr hliv, ?_⟩
      · rw [fid]; exact hcid
      · rw [fport]; exact hport
  · intro r2 hr2 hliv2
    simp only [List.mem_map] at hr2
    obtain ⟨r, hr, rfl⟩ := hr2
    obtain ⟨pr, hpr, hport, hcid⟩ := h6 r hr ((fstat r hr).mp hliv2)
    refine ⟨pr, hpr, ?_, ?_⟩
    · rw [fport]; exact hport
    · rw [fid]; exact hcid
  · intro pr hpr
    constructor
    · intro hav
      obtain ⟨r, hr, hliv, hport⟩ := (h7 pr hpr).mp hav
      refine ⟨f r, List.mem_map_of_mem f hr, (fstat r hr).mpr hliv, ?_⟩
      rw [fport]; exact hport
    · intro hex
      obtain ⟨r2, hr2, hliv2, hport2⟩ := hex
      simp only [List.mem_map] at hr2
      obtain ⟨r, hr, rfl⟩ := hr2
      refine (h7 pr hpr).mpr ⟨r, hr, (fstat r hr).mp hliv2, ?_⟩
      rw [← fport r]; exact hport2

/-- The two catalog writes of a delete — freeing the ports owned by row
`i`, then setting the row's status to `deleted` — preserve
`goodCatalog`. -/
theorem goodCatalog_freeDelete (c : Catalog) (i : Nat) (hg : goodCatalog c) :
    goodCatalog (applyStmts c
      [CatalogStmt.freePortByOwner i, CatalogStmt.setStatus i CStatus.deleted]) := by
  obtain ⟨⟨h1, h2, h3, h4, h5, h6⟩, h7⟩ := hg
  simp only [goodCatalog, wfCatalog, portInvariant, applyStmts, List.foldl, applyStmt]
  set f : ContainerRow → ContainerRow :=
    fun r => if r.id == i then { r with status := CStatus.deleted } else r with hfdef
  set g : PortRow → PortRow :=
    fun pr => if pr.container_id == some i then
      { pr with is_available := true, container_id := none } else pr with hgdef
  have fid : ∀ r : ContainerRow, (f r).id = r.id := by
    intro r
    by_cases h : r.id = i <;> simp [hfdef, h]
  have fport : ∀ r : ContainerRow, (f r).port = r.port := by
    intro r
    by_cases h : r.id = i <;> simp [hfdef, h]
  have fsame : ∀ r : ContainerRow, r.id ≠ i → f r = r := by
    intro r h
    simp [hfdef, h]
  have fstat : ∀ r : ContainerRow,
      ((f r).status ≠ CStatus.deleted ↔ r.id ≠ i ∧ r.status ≠ CStatus.deleted) := by
    intro r
    by_cases h : r.id = i
    · simp [hfdef, h]
    · simp [hfdef, h]
  have gport : ∀ pr : PortRow, (g pr).port = pr.port := by
    intro pr
    by_cases h : pr.container_id = some i <;> simp [hgdef, h]
  have gsame : ∀ pr : PortRow, pr.container_id ≠ some i → g pr = pr := by
    intro pr h
    simp [hgdef, h]
  have hownerport : ∀ r ∈ c.containers, r.status ≠ CStatus.deleted → r.id = i →
      ∀ pr ∈ c.port_assignments, pr.port = r.port → pr.container_id = some i := by
    intro r hr hliv hri pr hpr hport
    obtain ⟨prO, hprO, hportO, hcidO⟩ := h6 r hr hliv
    have hpp : prO = pr := h4 prO hprO pr hpr (by rw [hportO, hport])
    rw [← hpp, hcidO, hri]
  refine ⟨⟨?_, ?_, ?_, ?_, ?_, ?_⟩, ?_⟩
  · intro r2 hr2
    simp only [List.mem_map] at hr2
    obtain ⟨r, hr, rfl⟩ := hr2
    rw [fid]
    exact h1 r hr
  · intro a2 ha2 b2 hb2 hab
    simp only [List.mem_map] at ha2 hb2
    obtain ⟨a, ha, rfl⟩ := ha2
    obtain ⟨b, hb, rfl⟩ := hb2
    have hab2 : a.id = b.id := by rw [← fid a, ← fid b]; exact hab
    rw [h2 a ha b hb hab2]
  · intro a2 ha2 b2 hb2 hal hbl hport
    simp only [List.mem_map] at ha2 hb2
    obtain ⟨a, ha, rfl⟩ := ha2
    obtain ⟨b, hb, rfl⟩ := hb2
    obtain ⟨hai, hal2⟩ := (fstat a).mp hal
    obtain ⟨hbi, hbl2⟩ := (fstat b).mp hbl
    have hport2 : a.port = b.port := by rw [← fport a, ← fport b]; exact hport
    rw [h3 a ha b hb hal2 hbl2 hport2]
  · intro p1 hp1 p2 hp2 hpp
    simp only [List.mem_map] at hp1 hp2
    obtain ⟨q1, hq1, rfl⟩ := hp1
    obtain ⟨q2, hq2, rfl⟩ := hp2
    have hpp2 : q1.port = q2.port := by rw [← gport q1, ← gport q2]; exact hpp
    rw [h4 q1 hq1 q2 hq2 hpp2]
  · intro pr2 hpr2
    simp only [List.mem_map] at hpr2
    obtain ⟨pr, hpr, rfl⟩ := hpr2
    by_cases hc : pr.container_id = some i
    · left
      simp [hgdef, hc]
    · rw [gsame pr hc]
      rcases h5 pr hpr with hnone | ⟨r, hr, hcid, hliv, hport⟩
      · exact Or.inl hnone
      · have hri : r.id ≠ i := by
          intro hri
          exact hc (by rw [hcid, hri])
        refine Or.inr ⟨f r, List.mem_map_of_mem f hr, ?_, ?_, ?_⟩
        · rw [fsame r hri]; exact hcid
        · exact (fstat r).mpr ⟨hri, hliv⟩
        · rw [fport]; exact hport
  · intro r2 hr2 hliv2
    simp only [List.mem_map] at hr2
    obtain ⟨r, hr, rfl⟩ := hr2
    obtain ⟨hri, hliv⟩ := (fstat r).mp hliv2
    obtain ⟨pr, hpr, hport, hcid⟩ := h6 r hr hliv
    have hcne : pr.container_id ≠ some i := by
      rw [hcid]
      intro hcontra
      exact hri (by simpa using hcontra)
    refine ⟨g pr, List.mem_map_of_mem g hpr, ?_, ?_⟩
    · rw [gport, fport]; exact hport
    · rw [gsame pr hcne, hcid, fid]
  · intro pr2 hpr2
    simp only [List.mem_map] at hpr2
    obtain ⟨pr, hpr, rfl⟩ := hpr2
    by_cases hc : pr.container_id = some i
    · have hgpr : g pr = { pr with is_available := true, container_id := none } := by
        simp [hgdef, hc]
      rw [hgpr]
      constructor
      · intro hcontra
        exact absurd hcontra (by simp)
      · intro hex
        exfalso
        obtain ⟨r2, hr2, hliv2, hport2⟩ := hex
        simp only [List.mem_map] at hr2
        obtain ⟨r, hr, rfl⟩ := hr2
        obtain ⟨hri, hliv⟩ := (fstat r).mp hliv2
        rcases h5 pr hpr with hnone | ⟨rI, hrI, hcidI, hlivI, hportI⟩
        · rw [hnone] at hc
          exact absurd hc (by simp)
        · have hii : rI.id = i := by
            rw [hc] at hcidI
            simpa using hcidI.symm
          have hrp : r.port = rI.port := by
            have hrp2 : r.port = pr.port := by
              rw [← fport r]
              exact hport2
            rw [hrp2, ← hportI]
          have hri2 : r = rI := h3 r hr rI hrI hliv hlivI hrp
          rw [hri2, hii] at hri
          exact hri rfl
    · rw [gsame pr hc]
      constructor
      · intro hav
        obtain ⟨r, hr, hliv, hport⟩ := (h7 pr hpr).mp hav
        have hri : r.id ≠ i := by
          intro hri
          exact hc (hownerport r hr hliv hri pr hpr hport.symm)
        refine ⟨f r, List.mem_map_of_mem f hr, (fstat r).mpr ⟨hri, hliv⟩, ?_⟩
        rw [fport]
        exact hport
      · intro hex
        obtain ⟨r2, hr2, hliv2, hport2⟩ := hex
        simp only [List.mem_map] at hr2
        obtain ⟨r, hr, rfl⟩ := hr2
        obtain ⟨hri, hliv⟩ := (fstat r).mp hliv2
        refine (h7 pr hpr).mpr ⟨r, hr, hliv, ?_⟩
        rw [← fport r]
        exact hport2

/-- The two catalog writes of a successful create — inserting the new
running row (with the next auto-increment id and an available port),
then marking that port used — preserve `goodCatalog`. -/
theorem goodCatalog_insertMark (c : Catalog) (row : ContainerRow)
    (hid : row.id = c.nextId) (hstat : row.status = CStatus.running)
    (hpr : ∃ pr ∈ c.port_assignments, pr.port = row.port ∧ pr.is_available = true)
    (hg : goodCatalog c) :
    goodCatalog (applyStmts c
      [CatalogStmt.insertContainer row, CatalogStmt.markPortUsed row.id row.port]) := by
  obtain ⟨⟨h1, h2, h3, h4, h5, h6⟩, h7⟩ := hg
  obtain ⟨pr0, hpr0, hp0, hav0⟩ := hpr
  simp only [goodCatalog, wfCatalog, portInvariant, applyStmts, List.foldl, applyStmt]
  set g : PortRow → PortRow :=
    fun pr => if pr.port == row.port then
      { pr with is_available := false, container_id := some row.id } else pr with hgdef
  have gport : ∀ pr : PortRow, (g pr).port = pr.port := by
    intro pr
    by_cases h : pr.port = row.port <;> simp [hgdef, h]
  have gsame : ∀ pr : PortRow, pr.port ≠ row.port → g pr = pr := by
    intro pr h
    simp [hgdef, h]
  have gmark : ∀ pr : PortRow, pr.port = row.port →
      g pr = { pr with is_available := false, container_id := some row.id } := by
    intro pr h
    simp [hgdef, h]
  have hrowlive : row.status ≠ CStatus.deleted := by
    simp [hstat]
  have hnolive : ∀ r ∈ c.containers, r.status ≠ CStatus.deleted → r.port ≠ row.port := by
    intro r hr hliv hcontra
    have hiff := h7 pr0 hpr0
    rw [hav0] at hiff
    have hmem : ∃ r2 ∈ c.containers, r2.status ≠ CStatus.deleted ∧ r2.port = pr0.port :=
      ⟨r, hr, hliv, by rw [hcontra, hp0]⟩
    exact absurd (hiff.mpr hmem) (by simp)
  have hidfresh : ∀ r ∈ c.containers, r.id ≠ row.id := by
    intro r hr hcontra
    have hlt := h1 r hr
    rw [hcontra, hid] at hlt
    exact Nat.lt_irrefl _ hlt
  refine ⟨⟨?_, ?_, ?_, ?_, ?_, ?_⟩, ?_⟩
  · intro r2 hr2
    rcases List.mem_append.mp hr2 with hr | hr
    · exact Nat.lt_succ_of_lt (h1 r2 hr)
    · rw [List.mem_singleton.mp hr, hid]
      exact Nat.lt_succ_self _
  · intro a2 ha2 b2 hb2 hab
    rcases List.mem_append.mp ha2 with ha | ha <;> rcases List.mem_append.mp hb2 with hb | hb
    · exact h2 a2 ha b2 hb hab
    · rw [List.mem_singleton.mp hb] at hab
      exact absurd hab (hidfresh a2 ha)
    · rw [List.mem_singleton.mp ha] at hab
      exact absurd hab.symm (hidfresh b2 hb)
    · rw [List.mem_singleton.mp ha, List.mem_singleton.mp hb]
  · intro a2 ha2 b2 hb2 hal hbl hport
    rcases List.mem_append.mp ha2 with ha | ha <;> rcases List.mem_append.mp hb2 with hb | hb
    · exact h3 a2 ha b2 hb hal hbl hport
    · rw [List.mem_singleton.mp hb] at hport
      exact absurd hport (hnolive a2 ha hal)
    · rw [List.mem_singleton.mp ha] at hport
      exact absurd hport.symm (hnolive b2 hb hbl)
    · rw [List.mem_singleton.mp ha, List.mem_singleton.mp hb]
  · intro p1 hp1 p2 hp2 hpp
    simp only [List.mem_map] at hp1 hp2
    obtain ⟨q1, hq1, rfl⟩ := hp1
    obtain ⟨q2, hq2, rfl⟩ := hp2
    have hpp2 : q1.port = q2.port := by rw [← gport q1, ← gport q2]; exact hpp
    rw [h4 q1 hq1 q2 hq2 hpp2]
  · intro pr2 hpr2
    simp only [List.mem_map] at hpr2
    obtain ⟨pr, hpr, rfl⟩ := hpr2
    by_cases hc : pr.port = row.port
    · refine Or.inr ⟨row, List.mem_append_right _ (List.mem_singleton.mpr rfl), ?_,
        hrowlive, ?_⟩
      · rw [gmark pr hc]
      · rw [gport]
        exact hc.symm
    · rw [gsame pr hc]
      rcases h5 pr hpr with hnone | ⟨r, hr, hcid, hliv, hport⟩
      · exact Or.inl hnone
      · exact Or.inr ⟨r, List.mem_append_left _ hr, hcid, hliv, hport⟩
  · intro r2 hr2 hliv2
    rcases List.mem_append.mp hr2 with hr | hr
    · obtain ⟨pr, hpr, hport, hcid⟩ := h6 r2 hr hliv2
      have hcne : pr.port ≠ row.port := by
        rw [hport]
        exact hnolive r2 hr hliv2
      refine ⟨g pr, List.mem_map_of_mem g hpr, ?_, ?_⟩
      · rw [gsame pr hcne]
        exact hport
      · rw [gsame pr hcne]
        exact hcid
    · rw [List.mem_singleton.mp hr]
      refine ⟨g pr0, List.mem_map_of_mem g hpr0, ?_, ?_⟩
      · rw [gmark pr0 hp0]
        exact hp0
      · rw [gmark pr0 hp0]
  · intro pr2 hpr2
    simp only [List.mem_map] at hpr2
    obtain ⟨pr, hpr, rfl⟩ := hpr2
    by_cases hc : pr.port = row.port
    · rw [gmark pr hc]
      constructor
      · intro _
        exact ⟨row, List.mem_append_right _ (List.mem_singleton.mpr rfl), hrowlive, hc.symm⟩
      · intro _
        rfl
    · rw [gsame pr hc]
      constructor
      · intro hav
        obtain ⟨r, hr, hliv, hport⟩ := (h7 pr hpr).mp hav
        exact ⟨r, List.mem_append_left _ hr, hliv, hport⟩
      · intro hex
        obtain ⟨r2, hr2, hliv2, hport2⟩ := hex
        rcases List.mem_append.mp hr2 with hr | hr
        · exact (h7 pr hpr).mpr ⟨r2, hr, hliv2, hport2⟩
        · exfalso
          rw [List.mem_singleton.mp hr] at hport2
          exact hc hport2.symm

/-- Catalog effect of `createContainer`: either no write happened and
the catalog is unchanged, or the call succeeded and the catalog is the
application of the insert of a fresh running row followed by the mark
of its allocated port. -/
theorem createContainer_catalog_shape (st : SysState)
    (baseDomain instanceName serviceName : String) (res : ResourceSpec)
    (dockerOk proxyOk sslOk : Bool) :
    (createContainer st baseDomain instanceName serviceName res dockerOk proxyOk sslOk).state.catalog = st.catalog ∨
    ∃ row p,
      (createContainer st baseDomain instanceName serviceName res dockerOk proxyOk sslOk).state.catalog =
        applyStmts st.catalog
          [CatalogStmt.insertContainer row, CatalogStmt.markPortUsed row.id row.port] ∧
      row.id = st.catalog.nextId ∧ row.status = CStatus.running ∧ row.port = p ∧
      getAvailablePort st.catalog.port_assignments = Except.ok p := by
  by_cases hv : validInstanceName instanceName
  case neg => exact Or.inl (by simp [createContainer, hv])
  case pos =>
  rcases hsvc : st.catalog.services.filter (fun s => s.name == serviceName) with _ | ⟨svc, rest⟩
  · exact Or.inl (by simp [createContainer, hv, hsvc])
  · by_cases hex : 0 < (st.catalog.containers.filter (fun r =>
        r.container_identifier == instanceName ++ "-" ++ serviceName &&
        r.status != CStatus.deleted)).length
    · exact Or.inl (by simp [createContainer, hv, hsvc, hex])
    · cases hp : getAvailablePort st.catalog.port_assignments with
      | error e => exact Or.inl (by simp [createContainer, hv, hsvc, hex, hp])
      | ok port =>
          cases dockerOk with
          | false =>
              exact Or.inl (by simp [createContainer, dockerCreateContainer, hv, hsvc, hex, hp])
          | true =>
              cases proxyOk with
              | false =>
                  exact Or.inl (by
                    simp [createContainer, dockerCreateContainer, createSite, hv, hsvc, hex, hp])
              | true =>
                  refine Or.inr ?_
                  simp only [createContainer, dockerCreateContainer, createSite, hv, hsvc, hex,
                    hp, Bool.not_true, Bool.false_eq_true, if_false, if_true]
                  exact ⟨_, port, rfl, rfl, rfl, rfl, rfl⟩

/-- Catalog effect of `stopContainer`: unchanged, or one status write. -/
theorem stopContainer_catalog_shape (st : SysState) (i : Nat) :
    (stopContainer st i).state.catalog = st.catalog ∨
    (stopContainer st i).state.catalog =
      applyStmt st.catalog (CatalogStmt.setStatus i CStatus.stopped) := by
  cases hf : findContainer st.catalog i with
  | none =>
      simp only [stopContainer, hf]
      exact Or.inl trivial
  | some row =>
      simp only [stopContainer, hf]
      cases hdo : dockerStopContainer st.docker row.container_identifier with
      | error e =>
          simp only [hdo]
          exact Or.inl trivial
      | ok s2 =>
          simp only [hdo]
          exact Or.inr rfl

/-- Catalog effect of `startContainer`: unchanged, or one status write. -/
theorem startContainer_catalog_shape (st : SysState) (i : Nat) :
    (startContainer st i).state.catalog = st.catalog ∨
    (startContainer st i).state.catalog =
      applyStmt st.catalog (CatalogStmt.setStatus i CStatus.running) := by
  cases hf : findContainer st.catalog i with
  | none =>
      simp only [startContainer, hf]
      exact Or.inl trivial
  | some row =>
      simp only [startContainer, hf]
      cases hdo : dockerStartContainer st.docker row.container_identifier with
      | error e =>
          simp only [hdo]
          exact Or.inl trivial
      | ok s2 =>
          simp only [hdo]
          exact Or.inr rfl

/-- Catalog effect of `restartContainer`: unchanged, or one status write. -/
theorem restartContainer_catalog_shape (st : SysState) (i : Nat) :
    (restartContainer st i).state.catalog = st.catalog ∨
    (restartContainer st i).state.catalog =
      applyStmt st.catalog (CatalogStmt.setStatus i CStatus.running) := by
  cases hf : findContainer st.catalog i with
  | none =>
      simp only [restartContainer, hf]
      exact Or.inl trivial
  | some row =>
      simp only [restartContainer, hf]
      cases hdo : dockerRestartContainer st.docker row.container_identifier with
      | error e =>
          simp only [hdo]
          exact Or.inl trivial
      | ok s2 =>
          simp only [hdo]
          exact Or.inr rfl

/-- Catalog effect of `redeployContainer`: unchanged, or one status write. -/
theorem redeployContainer_catalog_shape (st : SysState) (i : Nat) :
    (redeployContainer st i).state.catalog = st.catalog ∨
    (redeployContainer st i).state.catalog =
      applyStmt st.catalog (CatalogStmt.setStatus i CStatus.running) := by
  cases hf : findContainer st.catalog i with
  | none =>
      simp only [redeployContainer, hf]
      exact Or.inl trivial
  | some row =>
      simp only [redeployContainer, hf]
      cases hdo : dockerRedeployContainer st.docker row.container_identifier with
      | error e =>
          simp only [hdo]
          exact Or.inl trivial
      | ok s2 =>
          simp only [hdo]
          exact Or.inr rfl

/-- Catalog effect of `deleteContainer`: unchanged, or the
free-port-then-soft-delete pair of writes. -/
theorem deleteContainer_catalog_shape (st : SysState) (baseDomain : String) (i : Nat)
    (proxyDeleteOk : Bool) :
    (deleteContainer st baseDomain i proxyDeleteOk).state.catalog = st.catalog ∨
    (deleteContainer st baseDomain i proxyDeleteOk).state.catalog =
      applyStmts st.catalog
        [CatalogStmt.freePortByOwner i, CatalogStmt.setStatus i CStatus.deleted] := by
  cases hf : findContainer st.catalog i with
  | none =>
      simp only [deleteContainer, hf]
      exact Or.inl trivial
  | some row =>
      simp only [deleteContainer, hf]
      exact Or.inr trivial

/-- `backupContainer` leaves the whole world unchanged. -/
theorem backupContainer_state_eq (st : SysState) (i : Nat) :
    (backupContainer st i).state = st := by
  cases hf : findContainer st.catalog i with
  | none => simp only [backupContainer, hf]
  | some row =>
      simp only [backupContainer, hf]
      cases hdo : dockerBackupContainer st.docker row.container_identifier with
      | error e => simp only [hdo]
      | ok b => simp only [hdo]

/-- `getContainerStatus` leaves the whole world unchanged. -/
theorem getContainerStatus_state_eq (st : SysState) (i : Nat) :
    (getContainerStatus st i).state = st := by
  cases hf : findContainer st.catalog i with
  | none => simp only [getContainerStatus, hf]
  | some row => simp only [getContainerStatus, hf]

/-- `getContainerLogs` leaves the whole world unchanged. -/
theorem getContainerLogs_state_eq (st : SysState) (i lines : Nat) :
    (getContainerLogs st i lines).state = st := by
  cases hf : findContainer st.catalog i with
  | none => simp only [getContainerLogs, hf]
  | some row =>
      simp only [getContainerLogs, hf]
      cases hdo : dockerGetContainerLogs st.docker row.container_identifier lines with
      | error e => simp only [hdo]
      | ok logs => simp only [hdo]

/-- C2 counterexample.  The claim says that upon return of the
allocation operation the selected port's availability flag is false,
selection and mark being one atomic catalog operation.  In the source,
`getAvailablePort` executes only a `SELECT` and returns the port — it
issues no write, so the pool after allocation is exactly the input
pool.  On a pool whose single port 14000 is free, allocation returns
14000 while every pool row (in particular the one for 14000) still has
its availability flag true. -/
theorem getAvailablePort_does_not_mark_cx :
    getAvailablePort soloFreePool = Except.ok 14000 ∧
    ∀ pr ∈ soloFreePool, pr.is_available = true := by decide

/-- C2 (amended): `getAvailablePort` returns the lowest-numbered port
whose availability flag is true and fails with the pool-exhausted error
exactly when no port is available; it does not modify the catalog — the
port is marked unavailable only later, by `createContainer`, after the
instance row is inserted. -/
theorem getAvailablePort_lowest_or_exhausted (ports : List PortRow) :
    (∀ p, getAvailablePort ports = Except.ok p →
       (∃ pr ∈ ports, pr.port = p ∧ pr.is_available = true) ∧
       (∀ pr ∈ ports, pr.is_available = true → p ≤ pr.port)) ∧
    (getAvailablePort ports = Except.error OrchError.noAvailablePorts ↔
       ∀ pr ∈ ports, pr.is_available = false) :=
  getAvailablePort_spec ports

/-- C2 witness: on a pool listing 14001 before 14000, both free,
allocation returns 14000, which is available and minimal. -/
theorem getAvailablePort_lowest_or_exhausted_witness :
    (∃ pr ∈ descFreePool, pr.port = 14000 ∧ pr.is_available = true) ∧
    (∀ pr ∈ descFreePool, pr.is_available = true → 14000 ≤ pr.port) :=
  (getAvailablePort_lowest_or_exhausted descFreePool).1 14000 (by decide)

/-- C7: `getToken` returns the cached bearer token exactly when a token
is cached and more than 5 minutes remain until its expiry at the time of
the call; in every other case it performs a fresh login and returns the
new token. -/
theorem getToken_cache_policy (s : Session) (now : Int) (reply : LoginReply) :
    ((getToken s now reply).didLogin = false ↔
       ∃ t e, s.token = some t ∧ s.tokenExpire = some e ∧ e - now > 5 * 60 * 1000) ∧
    (∀ t e, s.token = some t → s.tokenExpire = some e → e - now > 5 * 60 * 1000 →
       (getToken s now reply).token = t ∧ (getToken s now reply).session = s) ∧
    ((getToken s now reply).didLogin = true →
       (getToken s now reply).token = reply.token ∧
       (getToken s now reply).session =
         { token := some reply.token, tokenExpire := some reply.expire }) := by
  obtain ⟨tok, texp⟩ := s
  cases tok with
  | none => simp [getToken, login]
  | some t =>
      cases texp with
      | none => simp [getToken, login]
      | some e =>
          by_cases h : (300000 : Int) < e - now
          · simp [getToken, login, h]
          · simp [getToken, login, h]

/-- C7 witness: with 1000 seconds to expiry the cached token is
returned; with an empty cache the fresh token is returned. -/
theorem getToken_cache_policy_witness :
    (getToken { token := some "tok", tokenExpire := some 1000000 } 0
       { token := "fresh", expire := 2000000 }).token = "tok" ∧
    (getToken { token := none, tokenExpire := none } 0
       { token := "fresh", expire := 2000000 }).token = "fresh" := by
  constructor
  · exact ((getToken_cache_policy { token := some "tok", tokenExpire := some 1000000 } 0
      { token := "fresh", expire := 2000000 }).2.1 "tok" 1000000 rfl rfl (by decide)).1
  · exact ((getToken_cache_policy { token := none, tokenExpire := none } 0
      { token := "fresh", expire := 2000000 }).2.2 (by decide)).1

/-- C8: `createSite` performs, in order, the DNS domain registration,
the site creation, a fixed 5000 ms delay, and only then the certificate
request; and when the certificate request fails, the call still returns
the created site descriptor with `ssl = none` instead of raising. -/
theorem createSite_delay_and_nonfatal_ssl (fp : FPState) (subdomain : String) (port : Nat)
    (baseDomain : String) :
    (∀ sslOk : Bool,
       (createSite fp subdomain port baseDomain true sslOk).events =
         [FPEvent.domainAdd, FPEvent.siteCreate, FPEvent.delayMs 5000, FPEvent.sslRequest]) ∧
    (∃ r, (createSite fp subdomain port baseDomain true false).result = Except.ok r ∧
       r.ssl = none ∧ r.status = "created") := by
  constructor
  · intro sslOk
    simp [createSite, createSSL]
  · simp [createSite, createSSL]

/-- C9: `addDomain` and `deleteSite` are idempotent under repetition —
a second `addDomain` of the same domain leaves the control plane
unchanged and reports the conflict as the non-error status `exists`,
and `deleteSite` of a domain with no matching site leaves the control
plane unchanged and returns status `not_found` instead of raising, so
the second of two identical calls is a no-op. -/
theorem addDomain_deleteSite_idempotent (fp : FPState) (d : String)
    (h : ∀ s1 ∈ fp.sites, ∀ s2 ∈ fp.sites, s1.domain = s2.domain → s1 = s2) :
    (addDomain (addDomain fp d).1 d =
       ((addDomain fp d).1, { domain := d, status := "exists" })) ∧
    (deleteSite (deleteSite fp d true).fp d true =
       { fp := (deleteSite fp d true).fp
         result := Except.ok { siteId := none, domain := d, status := "not_found" } }) := by
  constructor
  · by_cases hc : d ∈ fp.dnsDomains
    · simp [addDomain, hc]
    · simp [addDomain, hc]
  · cases hfind : fp.sites.find? (fun s => s.domain == d) with
    | none => simp [deleteSite, hfind]
    | some site =>
        have hsite_mem : site ∈ fp.sites := List.mem_of_find?_eq_some hfind
        have hsite_dom : site.domain = d := by
          have hp := List.find?_some hfind
          simpa using hp
        have hnone : (fp.sites.filter (fun s => s.id != site.id)).find?
            (fun s => s.domain == d) = none := by
          rw [List.find?_eq_none]
          intro x hx
          simp only [List.mem_filter] at hx
          obtain ⟨hx1, hx2⟩ := hx
          intro hxd
          have hxd2 : x.domain = d := by simpa using hxd
          have hxs : x = site := h x hx1 site hsite_mem (by rw [hxd2, hsite_dom])
          rw [hxs] at hx2
          simp at hx2
        simp [deleteSite, hfind, hnone]

/-- C9 witness: on a control plane holding the single site
`alpha-n8n.ex.com`, deleting that domain twice ends in the same state
as deleting it once, the second call answering `not_found`. -/
theorem addDomain_deleteSite_idempotent_witness :
    deleteSite (deleteSite liveState.fastpanel "alpha-n8n.ex.com" true).fp
        "alpha-n8n.ex.com" true =
      { fp := (deleteSite liveState.fastpanel "alpha-n8n.ex.com" true).fp
        result := Except.ok
          { siteId := none, domain := "alpha-n8n.ex.com", status := "not_found" } } :=
  (addDomain_deleteSite_idempotent liveState.fastpanel "alpha-n8n.ex.com" (by decide)).2

/-- C4 counterexample.  `deletedRowState` holds a `containers` row with
id 1 whose status is `deleted` while a runtime container with its
identifier exists (the state left behind when the identifier is created
again after a soft delete).  The claim requires `stopContainer 1` to
fail with the not-found error because the row is deleted; instead the
lookup (`SELECT * FROM containers WHERE id = ?`, no status filter)
finds the row, the runtime driver is invoked, and the call completes
successfully, writing `stopped` over the deleted status. -/
theorem stopContainer_deleted_row_cx :
    (∃ r ∈ deletedRowState.catalog.containers, r.id = 1 ∧ r.status = CStatus.deleted) ∧
    (stopContainer deletedRowState 1).result = Except.ok "Container stopped successfully" := by
  decide

/-- C4 (amended): each by-id orchestrator operation fails with the
not-found error exactly when no `containers` row with the requested id
exists; a row whose status is `deleted` is found by the id lookup and
the operation proceeds to delegate to the runtime driver.  (Stop,
start, restart, redeploy and delete write the resulting status back;
backup, status and logs issue no catalog write.) -/
theorem byId_ops_notFound_iff (st : SysState) (baseDomain : String) (i lines : Nat)
    (proxyDeleteOk : Bool) :
    ((stopContainer st i).result = Except.error OrchError.containerNotFound ↔
       findContainer st.catalog i = none) ∧
    ((startContainer st i).result = Except.error OrchError.containerNotFound ↔
       findContainer st.catalog i = none) ∧
    ((restartContainer st i).result = Except.error OrchError.containerNotFound ↔
       findContainer st.catalog i = none) ∧
    ((redeployContainer st i).result = Except.error OrchError.containerNotFound ↔
       findContainer st.catalog i = none) ∧
    ((deleteContainer st baseDomain i proxyDeleteOk).result =
        Except.error OrchError.containerNotFound ↔
       findContainer st.catalog i = none) ∧
    ((backupContainer st i).result = Except.error OrchError.containerNotFound ↔
       findContainer st.catalog i = none) ∧
    ((getContainerStatus st i).result = Except.error OrchError.containerNotFound ↔
       findContainer st.catalog i = none) ∧
    ((getContainerLogs st i lines).result = Except.error OrchError.containerNotFound ↔
       findContainer st.catalog i = none) := by
  cases hf : findContainer st.catalog i with
  | none =>
      simp [stopContainer, startContainer, restartContainer, redeployContainer,
        deleteContainer, backupContainer, getContainerStatus, getContainerLogs, hf]
  | some row =>
      refine ⟨?_, ?_, ?_, ?_, ?_, ?_, ?_, ?_⟩
      · simp only [stopContainer, hf, dockerStopContainer]
        by_cases hdk : row.container_identifier ∈ st.docker.containers <;>
          simp [hdk]
      · simp only [startContainer, hf, dockerStartContainer]
        by_cases hdk : row.container_identifier ∈ st.docker.containers <;>
          simp [hdk]
      · simp only [restartContainer, hf, dockerRestartContainer]
        by_cases hdk : row.container_identifier ∈ st.docker.containers <;>
          simp [hdk]
      · simp only [redeployContainer, hf, dockerRedeployContainer]
        by_cases hdk : row.container_identifier ∈ st.docker.dirs <;>
          simp [hdk]
      · simp [deleteContainer, hf]
      · simp only [backupContainer, hf, dockerBackupContainer]
        by_cases hdk : row.container_identifier ∈ st.docker.dirs <;>
          simp [hdk]
      · simp [getContainerStatus, hf]
      · simp only [getContainerLogs, hf, dockerGetContainerLogs]
        by_cases hdk : row.container_identifier ∈ st.docker.containers <;>
          simp [hdk]

/-- C3 counterexample.  On `freshState`, `createContainer` of
`alpha` / `n8n` succeeds and issues its two catalog writes as two
separate statements.  Executing only the first exposes a catalog that
is neither the initial nor the final one: the instance row is already
inserted while its port is still flagged available.  The two writes are
therefore not one atomic transaction. -/
theorem createContainer_writes_not_one_transaction_cx :
    (createContainer freshState "ex.com" "alpha" "n8n"
        { cpu := none, memory := none } true true true).result.isOk = true ∧
    ¬ atomicStmts freshState.catalog
        (createContainer freshState "ex.com" "alpha" "n8n"
          { cpu := none, memory := none } true true true).writes ∧
    (∃ r ∈ (applyStmts freshState.catalog
        ((createContainer freshState "ex.com" "alpha" "n8n"
          { cpu := none, memory := none } true true true).writes.take 1)).containers,
       r.container_identifier = "alpha-n8n" ∧
       ∃ pr ∈ (applyStmts freshState.catalog
          ((createContainer freshState "ex.com" "alpha" "n8n"
            { cpu := none, memory := none } true true true).writes.take 1)).port_assignments,
         pr.port = r.port ∧ pr.is_available = true) := by
  decide

/-- C3 (amended): the two catalog writes of `createContainer` — the
instance-row insert followed by the mark-port-used update — are issued
only when both runtime provisioning and proxy-site creation succeeded;
on any failure no catalog write is issued at all.  The two writes are
separate sequential statements (see the counterexample for
non-atomicity), and the resulting catalog is exactly their sequential
application. -/
theorem createContainer_writes_only_after_success (st : SysState)
    (baseDomain instanceName serviceName : String) (res : ResourceSpec)
    (dockerOk proxyOk sslOk : Bool) :
    ((createContainer st baseDomain instanceName serviceName res dockerOk proxyOk sslOk).result.isOk = true →
       ∃ row, (createContainer st baseDomain instanceName serviceName res dockerOk proxyOk sslOk).writes =
         [CatalogStmt.insertContainer row, CatalogStmt.markPortUsed row.id row.port] ∧
         row.status = CStatus.running ∧ row.id = st.catalog.nextId) ∧
    ((createContainer st baseDomain instanceName serviceName res dockerOk proxyOk sslOk).result.isOk = false →
       (createContainer st baseDomain instanceName serviceName res dockerOk proxyOk sslOk).writes = []) ∧
    (createContainer st baseDomain instanceName serviceName res dockerOk proxyOk sslOk).state.catalog =
      applyStmts st.catalog
        (createContainer st baseDomain instanceName serviceName res dockerOk proxyOk sslOk).writes := by
  by_cases hv : validInstanceName instanceName
  case neg => simp [createContainer, hv, applyStmts, Except.isOk, Except.toBool]
  case pos =>
  rcases hsvc : st.catalog.services.filter (fun s => s.name == serviceName) with _ | ⟨svc, rest⟩
  · simp [createContainer, hv, hsvc, applyStmts, Except.isOk, Except.toBool]
  · by_cases hex : 0 < (st.catalog.containers.filter (fun r =>
        r.container_identifier == instanceName ++ "-" ++ serviceName &&
        r.status != CStatus.deleted)).length
    · simp [createContainer, hv, hsvc, hex, applyStmts, Except.isOk, Except.toBool]
    · cases hp : getAvailablePort st.catalog.port_assignments with
      | error e =>
          simp [createContainer, hv, hsvc, hex, hp, applyStmts, Except.isOk, Except.toBool]
      | ok port =>
          cases dockerOk with
          | false =>
              simp [createContainer, dockerCreateContainer, hv, hsvc, hex, hp, applyStmts,
                Except.isOk, Except.toBool]
          | true =>
              cases proxyOk with
              | false =>
                  simp [createContainer, dockerCreateContainer, createSite, hv, hsvc, hex, hp,
                    applyStmts, Except.isOk, Except.toBool]
              | true =>
                  simp only [createContainer, dockerCreateContainer, createSite, hv, hsvc, hex,
                    hp, Bool.not_true, Bool.false_eq_true, if_false, if_true]
                  exact ⟨fun _ => ⟨_, rfl, rfl, rfl⟩,
                    fun hc => by simp [Except.isOk, Except.toBool] at hc, trivial⟩

/-- C3 witness: the successful run on `freshState` issues exactly the
insert of the new running row followed by the mark of its port. -/
theorem createContainer_writes_only_after_success_witness :
    ∃ row, (createContainer freshState "ex.com" "alpha" "n8n"
        { cpu := none, memory := none } true true true).writes =
      [CatalogStmt.insertContainer row, CatalogStmt.markPortUsed row.id row.port] ∧
      row.status = CStatus.running ∧ row.id = freshState.catalog.nextId :=
  (createContainer_writes_only_after_success freshState "ex.com" "alpha" "n8n"
    { cpu := none, memory := none } true true true).1 (by decide)

/-- C5 counterexample.  `resurrectState` is reachable through completed
operations only (create `alpha-n8n`, delete it, create `beta-n8n` which
takes the freed port 14000, create `alpha-n8n` again on port 14001,
delete `beta-n8n` freeing 14000) and satisfies the invariant.  Because
the by-id lookup does not filter deleted rows, `startContainer` on the
soft-deleted row id 1 completes successfully and sets that row to
`running`, after which port 14000 is flagged available while the
resurrected non-deleted row references it — the claimed invariant fails
after a completed orchestrator operation. -/
theorem startContainer_breaks_port_invariant_cx :
    goodCatalog resurrectState.catalog ∧
    (startContainer resurrectState 1).result = Except.ok "Container started successfully" ∧
    ¬ portInvariant (startContainer resurrectState 1).state.catalog := by
  decide

/-- C5 (amended): after every completed orchestrator operation whose
target row (when it has one) is not soft-deleted, the port-pool
invariant — availability flag false exactly when a non-deleted instance
row references the port — is preserved, starting from a well-formed
catalog.  (An operation invoked on a soft-deleted row can resurrect it
and break the invariant; see the counterexample.) -/
theorem orchestrator_ops_preserve_port_invariant (st : SysState)
    (baseDomain instanceName serviceName : String) (res : ResourceSpec)
    (dockerOk proxyOk sslOk proxyDeleteOk : Bool) (i lines : Nat)
    (hg : goodCatalog st.catalog)
    (hlive : ∀ r ∈ st.catalog.containers, r.id = i → r.status ≠ CStatus.deleted) :
    portInvariant (createContainer st baseDomain instanceName serviceName res
      dockerOk proxyOk sslOk).state.catalog ∧
    portInvariant (stopContainer st i).state.catalog ∧
    portInvariant (startContainer st i).state.catalog ∧
    portInvariant (restartContainer st i).state.catalog ∧
    portInvariant (redeployContainer st i).state.catalog ∧
    portInvariant (deleteContainer st baseDomain i proxyDeleteOk).state.catalog ∧
    portInvariant (backupContainer st i).state.catalog ∧
    portInvariant (getContainerStatus st i).state.catalog ∧
    portInvariant (getContainerLogs st i lines).state.catalog := by
  refine ⟨?_, ?_, ?_, ?_, ?_, ?_, ?_, ?_, ?_⟩
  · rcases createContainer_catalog_shape st baseDomain instanceName serviceName res
      dockerOk proxyOk sslOk with h | ⟨row, p, hcat, hid2, hstat2, hport2, hp2⟩
    · rw [h]
      exact hg.2
    · rw [hcat]
      have hpr := ((getAvailablePort_spec st.catalog.port_assignments).1 p hp2).1
      refine (goodCatalog_insertMark st.catalog row hid2 hstat2 ?_ hg).2
      rw [hport2]
      exact hpr
  · rcases stopContainer_catalog_shape st i with h | h <;> rw [h]
    · exact hg.2
    · exact (goodCatalog_setStatus st.catalog i CStatus.stopped (by decide) hlive hg).2
  · rcases startContainer_catalog_shape st i with h | h <;> rw [h]
    · exact hg.2
    · exact (goodCatalog_setStatus st.catalog i CStatus.running (by decide) hlive hg).2
  · rcases restartContainer_catalog_shape st i with h | h <;> rw [h]
    · exact hg.2
    · exact (goodCatalog_setStatus st.catalog i CStatus.running (by decide) hlive hg).2
  · rcases redeployContainer_catalog_shape st i with h | h <;> rw [h]
    · exact hg.2
    · exact (goodCatalog_setStatus st.catalog i CStatus.running (by decide) hlive hg).2
  · rcases deleteContainer_catalog_shape st baseDomain i proxyDeleteOk with h | h <;> rw [h]
    · exact hg.2
    · exact (goodCatalog_freeDelete st.catalog i hg).2
  · rw [backupContainer_state_eq st i]
    exact hg.2
  · rw [getContainerStatus_state_eq st i]
    exact hg.2
  · rw [getContainerLogs_state_eq st i lines]
    exact hg.2

/-- C5 witness: on the world holding the live `alpha-n8n` instance,
creating a further instance and stopping instance 1 both preserve the
port-pool invariant. -/
theorem orchestrator_ops_preserve_port_invariant_witness :
    portInvariant (createContainer liveState "ex.com" "beta" "n8n"
      { cpu := none, memory := none } true true true).state.catalog ∧
    portInvariant (stopContainer liveState 1).state.catalog :=
  ⟨(orchestrator_ops_preserve_port_invariant liveState "ex.com" "beta" "n8n"
      { cpu := none, memory := none } true true true true 1 100
      (by decide) (by decide)).1,
   (orchestrator_ops_preserve_port_invariant liveState "ex.com" "beta" "n8n"
      { cpu := none, memory := none } true true true true 1 100
      (by decide) (by decide)).2.1⟩

/-- C1: when the proxy-site-creation step of `createContainer` fails
after the runtime container was created, the call fails with a wrapped
error naming the proxy failure as root cause, the just-created runtime
instance (container and working directory) is removed, no catalog write
was issued (so the catalog is unchanged, the allocated port is still
available in the pool, and no instance row for the identifier
exists). -/
theorem createContainer_proxy_failure_compensation
    (st : SysState) (baseDomain instanceName serviceName : String) (res : ResourceSpec)
    (sslOk : Bool)
    (hname : validInstanceName instanceName = true)
    (hsvc : st.catalog.services.filter (fun s => s.name == serviceName) ≠ [])
    (hport : ∃ p, getAvailablePort st.catalog.port_assignments = Except.ok p)
    (hfresh : ∀ r ∈ st.catalog.containers,
       r.container_identifier ≠ instanceName ++ "-" ++ serviceName) :
    (∃ cause, (createContainer st baseDomain instanceName serviceName res true false sslOk).result =
       Except.error (OrchError.fastpanelCreateFailed cause)) ∧
    (createContainer st baseDomain instanceName serviceName res true false sslOk).state.catalog =
      st.catalog ∧
    (createContainer st baseDomain instanceName serviceName res true false sslOk).writes = [] ∧
    (instanceName ++ "-" ++ serviceName) ∉
      (createContainer st baseDomain instanceName serviceName res true false sslOk).state.docker.containers ∧
    (instanceName ++ "-" ++ serviceName) ∉
      (createContainer st baseDomain instanceName serviceName res true false sslOk).state.docker.dirs ∧
    (∀ p, getAvailablePort st.catalog.port_assignments = Except.ok p →
       ∃ pr ∈ (createContainer st baseDomain instanceName serviceName res true false
           sslOk).state.catalog.port_assignments,
         pr.port = p ∧ pr.is_available = true) ∧
    (∀ r ∈ (createContainer st baseDomain instanceName serviceName res true false
        sslOk).state.catalog.containers,
       r.container_identifier ≠ instanceName ++ "-" ++ serviceName) := by
  obtain ⟨p, hp⟩ := hport
  have hfil : st.catalog.containers.filter (fun r =>
      r.container_identifier == instanceName ++ "-" ++ serviceName &&
      r.status != CStatus.deleted) = [] := by
    rw [List.filter_eq_nil_iff]
    intro r hr
    simp [hfresh r hr]
  have hex : ¬ 0 < (st.catalog.containers.filter (fun r =>
      r.container_identifier == instanceName ++ "-" ++ serviceName &&
      r.status != CStatus.deleted)).length := by
    rw [hfil]
    simp
  rcases hsvcl : st.catalog.services.filter (fun s => s.name == serviceName) with _ | ⟨svc, rest⟩
  · exact absurd hsvcl hsvc
  · have hred : (createContainer st baseDomain instanceName serviceName res true false
        sslOk).state.catalog = st.catalog := by
      simp [createContainer, hname, hsvcl, hex, hp, dockerCreateContainer, createSite,
        dockerDeleteContainer, dockerRemoveAll]
    refine ⟨⟨FPError.createSiteFailed, ?_⟩, hred, ?_, ?_, ?_, ?_, ?_⟩
    · simp [createContainer, hname, hsvcl, hex, hp, dockerCreateContainer, createSite,
        dockerDeleteContainer, dockerRemoveAll]
    · simp [createContainer, hname, hsvcl, hex, hp, dockerCreateContainer, createSite,
        dockerDeleteContainer, dockerRemoveAll]
    · simp [createContainer, hname, hsvcl, hex, hp, dockerCreateContainer, createSite,
        dockerDeleteContainer, dockerRemoveAll, List.mem_filter]
    · simp [createContainer, hname, hsvcl, hex, hp, dockerCreateContainer, createSite,
        dockerDeleteContainer, dockerRemoveAll, List.mem_filter]
    · intro p2 hp2
      rw [hred]
      exact ((getAvailablePort_spec st.catalog.port_assignments).1 p2 hp2).1
    · intro r hr
      rw [hred] at hr
      exact hfresh r hr

/-- C1 witness: on `freshState` with the proxy step failing, the create
of `alpha` / `n8n` fails with the wrapped proxy error and leaves the
catalog untouched. -/
theorem createContainer_proxy_failure_compensation_witness :
    (∃ cause, (createContainer freshState "ex.com" "alpha" "n8n"
       { cpu := none, memory := none } true false true).result =
       Except.error (OrchError.fastpanelCreateFailed cause)) ∧
    (createContainer freshState "ex.com" "alpha" "n8n"
       { cpu := none, memory := none } true false true).state.catalog = freshState.catalog ∧
    (createContainer freshState "ex.com" "alpha" "n8n"
       { cpu := none, memory := none } true false true).writes = [] :=
  ⟨(createContainer_proxy_failure_compensation freshState "ex.com" "alpha" "n8n"
      { cpu := none, memory := none } true (by decide) (by decide)
      ⟨14000, by decide⟩ (by decide)).1,
   (createContainer_proxy_failure_compensation freshState "ex.com" "alpha" "n8n"
      { cpu := none, memory := none } true (by decide) (by decide)
      ⟨14000, by decide⟩ (by decide)).2.1,
   (createContainer_proxy_failure_compensation freshState "ex.com" "alpha" "n8n"
      { cpu := none, memory := none } true (by decide) (by decide)
      ⟨14000, by decide⟩ (by decide)).2.2.1⟩

/-- Status update of the by-id filtered rows commutes with the map that
implements `UPDATE containers SET status = ? WHERE id = ?`. -/
theorem filter_byId_map_setStatus (l : List ContainerRow) (i : Nat) (s : CStatus) :
    (l.map (fun r => if r.id == i then { r with status := s } else r)).filter
        (fun r => r.id == i) =
      (l.filter (fun r => r.id == i)).map
        (fun r => if r.id == i then { r with status := s } else r) := by
  rw [List.filter_map]
  congr 1
  apply List.filter_congr
  intro r hr
  by_cases h : r.id = i <;> simp [Function.comp, h]

/-- C6: delete of an existing instance completes even when the
proxy-site deletion step fails: the result is the success message, the
runtime container and its working directory are removed, the control
plane is left as it was (the failure is swallowed), every pool row
owned by the instance is freed (availability true, owner cleared, no
row keeps the owner reference), and the instance row's status is set to
`deleted`. -/
theorem deleteContainer_proxy_failure_completes (st : SysState) (baseDomain : String)
    (i : Nat) (row : ContainerRow) (hfind : findContainer st.catalog i = some row) :
    (deleteContainer st baseDomain i false).result =
      Except.ok "Container deleted successfully" ∧
    row.container_identifier ∉ (deleteContainer st baseDomain i false).state.docker.containers ∧
    row.container_identifier ∉ (deleteContainer st baseDomain i false).state.docker.dirs ∧
    (deleteContainer st baseDomain i false).state.fastpanel = st.fastpanel ∧
    (∀ pr ∈ (deleteContainer st baseDomain i false).state.catalog.port_assignments,
       pr.container_id ≠ some i) ∧
    (∀ pr ∈ st.catalog.port_assignments, pr.container_id = some i →
       ∃ pr2 ∈ (deleteContainer st baseDomain i false).state.catalog.port_assignments,
         pr2.port = pr.port ∧ pr2.is_available = true ∧ pr2.container_id = none) ∧
    findContainer (deleteContainer st baseDomain i false).state.catalog i =
      some { row with status := CStatus.deleted } := by
  refine ⟨?_, ?_, ?_, ?_, ?_, ?_, ?_⟩
  · simp [deleteContainer, hfind]
  · simp [deleteContainer, hfind, dockerDeleteContainer, dockerRemoveAll, List.mem_filter]
  · simp [deleteContainer, hfind, dockerDeleteContainer, dockerRemoveAll, List.mem_filter]
  · simp [deleteContainer, hfind, deleteSite]
  · simp only [deleteContainer, hfind, applyStmts, List.foldl, applyStmt]
    intro pr2 hpr2
    simp only [List.mem_map] at hpr2
    obtain ⟨pr, hpr, rfl⟩ := hpr2
    by_cases hc : pr.container_id = some i <;> simp [hc]
  · simp only [deleteContainer, hfind, applyStmts, List.foldl, applyStmt]
    intro pr hpr hcid
    refine ⟨_, List.mem_map_of_mem _ hpr, ?_⟩
    simp [hcid]
  · simp only [deleteContainer, hfind, applyStmts, List.foldl, applyStmt]
    unfold findContainer
    rw [filter_byId_map_setStatus, List.head?_map]
    unfold findContainer at hfind
    rw [hfind]
    simp [(findContainer_some st.catalog i row (by unfold findContainer; exact hfind)).2]

/-- C6 witness: deleting the live `alpha-n8n` instance while the proxy
deletion fails still succeeds and soft-deletes the row. -/
theorem deleteContainer_proxy_failure_completes_witness :
    (deleteContainer liveState "ex.com" 1 false).result =
      Except.ok "Container deleted successfully" ∧
    findContainer (deleteContainer liveState "ex.com" 1 false).state.catalog 1 =
      some { liveRow with status := CStatus.deleted } :=
  ⟨(deleteContainer_proxy_failure_completes liveState "ex.com" 1 liveRow (by decide)).1,
   (deleteContainer_proxy_failure_completes liveState "ex.com" 1 liveRow
      (by decide)).2.2.2.2.2.2⟩

/-- C10: a successful stop, start, restart, or redeploy performs
exactly one catalog write — the status column of the target id (to
`stopped` for stop, `running` for the others) — leaving the port
assignments, the services table, the auto-increment counter, the proxy
control plane, the runtime state, and every other instance row
unchanged (in particular a stopped instance keeps its port
reserved). -/
theorem status_ops_frame (st : SysState) (i : Nat) :
    ((stopContainer st i).result.isOk = true →
       (stopContainer st i).state.catalog.containers =
         st.catalog.containers.map (fun r =>
           if r.id == i then { r with status := CStatus.stopped } else r) ∧
       (stopContainer st i).state.catalog.port_assignments = st.catalog.port_assignments ∧
       (stopContainer st i).state.catalog.services = st.catalog.services ∧
       (stopContainer st i).state.catalog.nextId = st.catalog.nextId ∧
       (stopContainer st i).state.fastpanel = st.fastpanel ∧
       (stopContainer st i).state.docker = st.docker ∧
       (∀ r ∈ st.catalog.containers, r.id ≠ i →
          r ∈ (stopContainer st i).state.catalog.containers)) ∧
    ((startContainer st i).result.isOk = true →
       (startContainer st i).state.catalog.containers =
         st.catalog.containers.map (fun r =>
           if r.id == i then { r with status := CStatus.running } else r) ∧
       (startContainer st i).state.catalog.port_assignments = st.catalog.port_assignments ∧
       (startContainer st i).state.catalog.services = st.catalog.services ∧
       (startContainer st i).state.catalog.nextId = st.catalog.nextId ∧
       (startContainer st i).state.fastpanel = st.fastpanel ∧
       (startContainer st i).state.docker = st.docker ∧
       (∀ r ∈ st.catalog.containers, r.id ≠ i →
          r ∈ (startContainer st i).state.catalog.containers)) ∧
    ((restartContainer st i).result.isOk = true →
       (restartContainer st i).state.catalog.containers =
         st.catalog.containers.map (fun r =>
           if r.id == i then { r with status := CStatus.running } else r) ∧
       (restartContainer st i).state.catalog.port_assignments = st.catalog.port_assignments ∧
       (restartContainer st i).state.catalog.services = st.catalog.services ∧
       (restartContainer st i).state.catalog.nextId = st.catalog.nextId ∧
       (restartContainer st i).state.fastpanel = st.fastpanel ∧
       (restartContainer st i).state.docker = st.docker ∧
       (∀ r ∈ st.catalog.containers, r.id ≠ i →
          r ∈ (restartContainer st i).state.catalog.containers)) ∧
    ((redeployContainer st i).result.isOk = true →
       (redeployContainer st i).state.catalog.containers =
         st.catalog.containers.map (fun r =>
           if r.id == i then { r with status := CStatus.running } else r) ∧
       (redeployContainer st i).state.catalog.port_assignments = st.catalog.port_assignments ∧
       (redeployContainer st i).state.catalog.services = st.catalog.services ∧
       (redeployContainer st i).state.catalog.nextId = st.catalog.nextId ∧
       (redeployContainer st i).state.fastpanel = st.fastpanel ∧
       (redeployContainer st i).state.docker = st.docker ∧
       (∀ r ∈ st.catalog.containers, r.id ≠ i →
          r ∈ (redeployContainer st i).state.catalog.containers)) := by
  refine ⟨?_, ?_, ?_, ?_⟩
  · intro hok
    cases hf : findContainer st.catalog i with
    | none => simp [stopContainer, hf, Except.isOk, Except.toBool] at hok
    | some row =>
        cases hdo : dockerStopContainer st.docker row.container_identifier with
        | error e => simp [stopContainer, hf, hdo, Except.isOk, Except.toBool] at hok
        | ok s2 =>
            simp only [stopContainer, hf, hdo, applyStmts, List.foldl, applyStmt]
            refine ⟨trivial, trivial, trivial, trivial, trivial, trivial, ?_⟩
            intro r hr hri
            exact List.mem_map.mpr ⟨r, hr, by simp [hri]⟩
  · intro hok
    cases hf : findContainer st.catalog i with
    | none => simp [startContainer, hf, Except.isOk, Except.toBool] at hok
    | some row =>
        cases hdo : dockerStartContainer st.docker row.container_identifier with
        | error e => simp [startContainer, hf, hdo, Except.isOk, Except.toBool] at hok
        | ok s2 =>
            simp only [startContainer, hf, hdo, applyStmts, List.foldl, applyStmt]
            refine ⟨trivial, trivial, trivial, trivial, trivial, trivial, ?_⟩
            intro r hr hri
            exact List.mem_map.mpr ⟨r, hr, by simp [hri]⟩
  · intro hok
    cases hf : findContainer st.catalog i with
    | none => simp [restartContainer, hf, Except.isOk, Except.toBool] at hok
    | some row =>
        cases hdo : dockerRestartContainer st.docker row.container_identifier with
        | error e => simp [restartContainer, hf, hdo, Except.isOk, Except.toBool] at hok
        | ok s2 =>
            simp only [restartContainer, hf, hdo, applyStmts, List.foldl, applyStmt]
            refine ⟨trivial, trivial, trivial, trivial, trivial, trivial, ?_⟩
            intro r hr hri
            exact List.mem_map.mpr ⟨r, hr, by simp [hri]⟩
  · intro hok
    cases hf : findContainer st.catalog i with
    | none => simp [redeployContainer, hf, Except.isOk, Except.toBool] at hok
    | some row =>
        cases hdo : dockerRedeployContainer st.docker row.container_identifier with
        | error e => simp [redeployContainer, hf, hdo, Except.isOk, Except.toBool] at hok
        | ok s2 =>
            simp only [redeployContainer, hf, hdo, applyStmts, List.foldl, applyStmt]
            refine ⟨trivial, trivial, trivial, trivial, trivial, trivial, ?_⟩
            intro r hr hri
            exact List.mem_map.mpr ⟨r, hr, by simp [hri]⟩

/-- C10 witness: stopping and starting the live instance 1 leave the
port-assignment table untouched. -/
theorem status_ops_frame_witness :
    (stopContainer liveState 1).state.catalog.port_assignments =
      liveState.catalog.port_assignments ∧
    (startContainer liveState 1).state.catalog.port_assignments =
      liveState.catalog.port_assignments :=
  ⟨((status_ops_frame liveState 1).1 (by decide)).2.1,
   ((status_ops_frame liveState 1).2.1 (by decide)).2.1⟩

end NoPod
